import Mathlib

/-!
Verification of the credential/session resolution contract and selected
operation behaviours of the `mcp_aws` package, via a shallow embedding of
the Python source into Lean.

The embedding follows `src/mcp_aws/client.py`,
`src/mcp_aws/operations/cloudwatch.py`, `src/mcp_aws/operations/secrets.py`,
`src/mcp_aws/server.py` and `src/mcp_aws/langchain_tools.py`.
-/

/-- Process environment as consulted by `AWSClient.__init__`: the four
variables it reads, each possibly absent. A variable set to the empty
string is `some ""`, distinct from an absent variable (`none`), matching
`os.environ.get`. -/
structure Env where
  AWS_REGION : Option String
  AWS_ACCESS_KEY_ID : Option String
  AWS_SECRET_ACCESS_KEY : Option String
  AWS_PROFILE : Option String
deriving DecidableEq, Repr

/-- Python `x or y` for `x : str | None`, `y : str`: returns `y` when `x`
is `None` or the empty string (both falsy), else the string in `x`. -/
def pyOr (x : Option String) (y : String) : String :=
  match x with
  | none => y
  | some s => if s = "" then y else s

/-- ASCII whitespace as recognised by Python `str.strip` with no
argument: space, tab, newline, carriage return, vertical tab, form
feed. -/
def pyIsSpace (c : Char) : Bool :=
  c == ' ' || c == '\t' || c == '\n' || c == '\r' || c == '\x0B' || c == '\x0C'

/-- Python `str.strip()` on a string: drop leading and trailing
whitespace characters. -/
def pyStrip (s : String) : String :=
  ⟨((s.data.dropWhile pyIsSpace).reverse.dropWhile pyIsSpace).reverse⟩

/-- Resolved configuration held by an `AWSClient` instance: the four
attributes assigned in `AWSClient.__init__`. -/
structure AWSClient where
  region : String
  access_key_id : String
  secret_access_key : String
  profile : String
deriving DecidableEq, Repr

/-- Embedding of `AWSClient.__init__` (client.py lines 20-34).  Each field
is `(override or os.environ.get(VAR, default)).strip()`; `pyStrip`
models Python `str.strip`.  The default is
`"us-east-1"` for the region and `""` for the other three fields. -/
def AWSClient.init (env : Env)
    (region access_key_id secret_access_key profile : Option String) :
    AWSClient :=
  { region := pyStrip (pyOr region (env.AWS_REGION.getD "us-east-1"))
    access_key_id := pyStrip (pyOr access_key_id (env.AWS_ACCESS_KEY_ID.getD ""))
    secret_access_key :=
      pyStrip (pyOr secret_access_key (env.AWS_SECRET_ACCESS_KEY.getD ""))
    profile := pyStrip (pyOr profile (env.AWS_PROFILE.getD "")) }

/-- The three session-authentication modes a `boto3.Session` construction
can take in `AWSClient.session`, together with the arguments passed. -/
inductive Session where
  | staticKeys (access_key_id secret_access_key region : String)
  | namedProfile (profile region : String)
  | ambient (region : String)
deriving DecidableEq, Repr

/-- Embedding of `AWSClient.session` (client.py lines 36-46): static keys
when both key fields are truthy (non-empty), else the named profile when
truthy, else the ambient default chain; every branch passes the
instance's region. -/
def AWSClient.session (c : AWSClient) : Session :=
  if c.access_key_id ≠ "" ∧ c.secret_access_key ≠ "" then
    Session.staticKeys c.access_key_id c.secret_access_key c.region
  else if c.profile ≠ "" then
    Session.namedProfile c.profile c.region
  else
    Session.ambient c.region

/-- The region a session was constructed with (the `region_name` argument
passed on every branch of `AWSClient.session`). -/
def Session.regionOf : Session → String
  | Session.staticKeys _ _ r => r
  | Session.namedProfile _ r => r
  | Session.ambient r => r

/-- A boto3 service client as produced by `session().client(service)`:
bound to one service name and the session that minted it. -/
structure ServiceClient where
  service : String
  sess : Session
deriving DecidableEq, Repr

/-- Embedding of `AWSClient.get_client` (client.py lines 48-50): builds a
fresh session and asks it for a client for `service`. -/
def AWSClient.get_client (c : AWSClient) (service : String) : ServiceClient :=
  { service := service, sess := c.session }

/-- Construction as a state transition on the process environment:
`AWSClient.__init__` only reads `os.environ` and assigns instance
attributes, so the environment is returned unchanged. -/
def AWSClient.construct (env : Env)
    (region access_key_id secret_access_key profile : Option String) :
    AWSClient × Env :=
  (AWSClient.init env region access_key_id secret_access_key profile, env)

/-! ## CloudWatch Logs operations (operations/cloudwatch.py) -/

/-- A log stream record inside a `describe_log_streams` response. -/
structure LogStream where
  logStreamName : String
deriving DecidableEq, Repr

/-- A log event inside a `get_log_events` response. -/
structure LogEvent where
  timestamp : Int
  message : String
deriving DecidableEq, Repr

/-- Response of `describe_log_streams`: its `logStreams` list (an absent
key is modelled as the empty list, matching `streams.get("logStreams")`
truthiness). -/
structure DescribeLogStreamsResponse where
  logStreams : List LogStream
deriving DecidableEq, Repr

/-- Response of `get_log_events`: its `events` list (an absent key is
modelled as the empty list, matching `response.get("events", [])`). -/
structure GetLogEventsResponse where
  events : List LogEvent
deriving DecidableEq, Repr

/-- The CloudWatch Logs endpoint as `get_logs` sees it: a response for
each API call the function can make.  `describe_log_streams` receives the
log-group name and the `orderBy`, `descending` and `limit` arguments the
code passes; `get_log_events` receives group, stream and limit. -/
structure LogsAPI where
  describe_log_streams : String → String → Bool → Nat → DescribeLogStreamsResponse
  get_log_events : String → String → Nat → GetLogEventsResponse

/-- An output record of `get_logs`: the `{timestamp, message}` dict built
in its final list comprehension. -/
structure LogRecord where
  timestamp : Int
  message : String
deriving DecidableEq, Repr

/-- The final reshaping comprehension of `get_logs`:
`[{"timestamp": e["timestamp"], "message": e["message"]} for e in events]`. -/
def reshapeEvents (events : List LogEvent) : List LogRecord :=
  events.map (fun e => { timestamp := e.timestamp, message := e.message })

/-- The `else` branch of `get_logs` (cloudwatch.py lines 52-67), taken
when `log_stream` is falsy: describe streams ordered by `LastEventTime`
descending with limit 1; under the truthiness guard, read events from
the first returned stream, otherwise use the empty event list.  Python
indexing `[0]` is modelled as an `IndexError` on an empty list; the
guard makes it unreachable. -/
def get_logs_latest_stream (api : LogsAPI) (log_group : String)
    (limit : Nat) : Except String (List LogRecord) :=
  let streams := api.describe_log_streams log_group "LastEventTime" true 1
  if streams.logStreams ≠ [] then
    match streams.logStreams.head? with
    | some st =>
      Except.ok
        (reshapeEvents (api.get_log_events log_group st.logStreamName limit).events)
    | none => Except.error "IndexError"
  else
    Except.ok []

/-- Embedding of `get_logs` (cloudwatch.py lines 30-70).  When
`log_stream` is truthy (present and non-empty), events are fetched from
that stream; otherwise the latest-stream branch runs. -/
def get_logs (api : LogsAPI) (log_group : String)
    (log_stream : Option String) (limit : Nat) :
    Except String (List LogRecord) :=
  match log_stream with
  | some s =>
    if s = "" then get_logs_latest_stream api log_group limit
    else
      Except.ok (reshapeEvents (api.get_log_events log_group s limit).events)
  | none => get_logs_latest_stream api log_group limit

/-- A Logs endpoint with no streams in any group, used to evaluate
`get_logs` concretely. -/
def emptyLogsAPI : LogsAPI :=
  { describe_log_streams := fun _ _ _ _ => { logStreams := [] }
    get_log_events := fun _ _ _ => { events := [] } }

/-- A Logs endpoint whose every group has one stream `"stream-a"` with a
single event, used to evaluate `get_logs` concretely. -/
def oneStreamLogsAPI : LogsAPI :=
  { describe_log_streams := fun _ _ _ _ =>
      { logStreams := [{ logStreamName := "stream-a" }] }
    get_log_events := fun _ s _ =>
      { events := [{ timestamp := 5, message := s }] } }

/-! ## Secrets Manager operations (operations/secrets.py) -/

/-- Response of `get_secret_value`: the two fields `get_secret` consults,
each possibly absent.  `SecretBinary` is a byte string in the SDK,
modelled here as a string. -/
structure GetSecretValueResponse where
  SecretString : Option String
  SecretBinary : Option String
deriving DecidableEq, Repr

/-- Embedding of `get_secret` (secrets.py lines 24-32) applied to the SDK
response: `response.get("SecretString", response.get("SecretBinary", ""))`. -/
def get_secret (response : GetSecretValueResponse) : String :=
  response.SecretString.getD (response.SecretBinary.getD "")

/-! ## Tool-layer error handling (server.py and langchain_tools.py)

Each tool wrapper is modelled by its error-translation behaviour: a
function from the outcome of the underlying operation call (a result
string, or a raised exception) to the outcome the wrapper produces.
Serialization of a successful payload (`json.dumps`) is abstracted as the
identity on the result string; the claims under study concern only the
error paths. -/

/-- Exceptions relevant to the wrappers: botocore `ClientError` carrying
`e.response["Error"]["Message"]`, `NoCredentialsError`, and any other
exception. -/
inductive AWSErr where
  | clientError (message : String)
  | noCredentials
  | other (message : String)
deriving DecidableEq, Repr

/-- Outcome of a tool body: `ok` a returned string, or `error` a raised
exception. -/
abbrev OpOutcome := Except AWSErr String

/-- Python `str(e)` on an exception, as used by the f-string in the
LangChain `aws_status`.  The exact text is irrelevant to the claims;
only that a string is produced. -/
def pyStrOfExc : AWSErr → String
  | AWSErr.clientError m => m
  | AWSErr.noCredentials => "Unable to locate credentials"
  | AWSErr.other m => m

namespace Server

/-- The `_error` helper (server.py lines 26-27). -/
def errorString (m : String) : String := "AWS Error: " ++ m

/-- The `try/except ClientError: return _error(e)` shape shared by all
server.py tools except `ec2_list_instances` and `aws_status`; every
other exception propagates. -/
def catchClientError (r : OpOutcome) : OpOutcome :=
  match r with
  | Except.error (AWSErr.clientError m) => Except.ok (errorString m)
  | _ => r

/-- `ec2_list_instances` (server.py): catches `ClientError` and also
`NoCredentialsError`. -/
def ec2_list_instances (r : OpOutcome) : OpOutcome :=
  match r with
  | Except.error (AWSErr.clientError m) => Except.ok (errorString m)
  | Except.error AWSErr.noCredentials =>
    Except.ok "Error: No AWS credentials configured"
  | _ => r

/-- `ec2_start_instance` (server.py lines 50-61): catches `ClientError`
only. -/
def ec2_start_instance (r : OpOutcome) : OpOutcome := catchClientError r

/-- `ec2_stop_instance` (server.py): catches `ClientError` only. -/
def ec2_stop_instance (r : OpOutcome) : OpOutcome := catchClientError r

/-- `ec2_describe_instance` (server.py): catches `ClientError` only. -/
def ec2_describe_instance (r : OpOutcome) : OpOutcome := catchClientError r

/-- `s3_list_buckets` (server.py): catches `ClientError` only. -/
def s3_list_buckets (r : OpOutcome) : OpOutcome := catchClientError r

/-- `s3_list_objects` (server.py): catches `ClientError` only. -/
def s3_list_objects (r : OpOutcome) : OpOutcome := catchClientError r

/-- `s3_get_object` (server.py): catches `ClientError` only. -/
def s3_get_object (r : OpOutcome) : OpOutcome := catchClientError r

/-- `s3_put_object` (server.py): catches `ClientError` only. -/
def s3_put_object (r : OpOutcome) : OpOutcome := catchClientError r

/-- `secrets_list` (server.py): catches `ClientError` only. -/
def secrets_list (r : OpOutcome) : OpOutcome := catchClientError r

/-- `secrets_get` (server.py): catches `ClientError` only. -/
def secrets_get (r : OpOutcome) : OpOutcome := catchClientError r

/-- `secrets_create` (server.py): catches `ClientError` only. -/
def secrets_create (r : OpOutcome) : OpOutcome := catchClientError r

/-- `lambda_list_functions` (server.py): catches `ClientError` only. -/
def lambda_list_functions (r : OpOutcome) : OpOutcome := catchClientError r

/-- `lambda_invoke` (server.py): catches `ClientError` only. -/
def lambda_invoke (r : OpOutcome) : OpOutcome := catchClientError r

/-- `cloudwatch_list_log_groups` (server.py): catches `ClientError`
only. -/
def cloudwatch_list_log_groups (r : OpOutcome) : OpOutcome := catchClientError r

/-- `cloudwatch_get_logs` (server.py): catches `ClientError` only. -/
def cloudwatch_get_logs (r : OpOutcome) : OpOutcome := catchClientError r

/-- `aws_status` (server.py): catches `NoCredentialsError` and
`ClientError`, with its own message formats. -/
def aws_status (r : OpOutcome) : OpOutcome :=
  match r with
  | Except.error AWSErr.noCredentials =>
    Except.ok "No AWS credentials configured"
  | Except.error (AWSErr.clientError m) =>
    Except.ok ("Connection error: " ++ m)
  | _ => r

/-- All sixteen `@mcp.tool` wrappers registered in server.py. -/
def tools : List (OpOutcome → OpOutcome) :=
  [ec2_list_instances, ec2_start_instance, ec2_stop_instance,
   ec2_describe_instance, s3_list_buckets, s3_list_objects, s3_get_object,
   s3_put_object, secrets_list, secrets_get, secrets_create,
   lambda_list_functions, lambda_invoke, cloudwatch_list_log_groups,
   cloudwatch_get_logs, aws_status]

/-- The server.py tools whose `try` block names only `ClientError`: on a
`NoCredentialsError` these let the exception propagate. -/
def noCredPropagatingTools : List (OpOutcome → OpOutcome) :=
  [ec2_start_instance, ec2_stop_instance, ec2_describe_instance,
   s3_list_buckets, s3_list_objects, s3_get_object, s3_put_object,
   secrets_list, secrets_get, secrets_create, lambda_list_functions,
   lambda_invoke, cloudwatch_list_log_groups, cloudwatch_get_logs]

end Server

namespace Langchain

/-- `aws_ec2_list` (langchain_tools.py): no `try/except`; exceptions
propagate to the host framework. -/
def aws_ec2_list (r : OpOutcome) : OpOutcome := r

/-- `aws_ec2_status` (langchain_tools.py): no `try/except`. -/
def aws_ec2_status (r : OpOutcome) : OpOutcome := r

/-- `aws_ec2_start` (langchain_tools.py lines 74-77): no `try/except`. -/
def aws_ec2_start (r : OpOutcome) : OpOutcome := r

/-- `aws_ec2_stop` (langchain_tools.py): no `try/except`. -/
def aws_ec2_stop (r : OpOutcome) : OpOutcome := r

/-- `aws_s3_list` (langchain_tools.py): no `try/except`. -/
def aws_s3_list (r : OpOutcome) : OpOutcome := r

/-- `aws_s3_list_buckets` (langchain_tools.py): no `try/except`. -/
def aws_s3_list_buckets (r : OpOutcome) : OpOutcome := r

/-- `aws_s3_get` (langchain_tools.py): no `try/except`. -/
def aws_s3_get (r : OpOutcome) : OpOutcome := r

/-- `aws_s3_put` (langchain_tools.py): no `try/except`. -/
def aws_s3_put (r : OpOutcome) : OpOutcome := r

/-- `aws_secrets_get` (langchain_tools.py): its `try/except` covers only
`json.JSONDecodeError`/`TypeError` around pretty-printing a successful
value; SDK exceptions from the operation call propagate. -/
def aws_secrets_get (r : OpOutcome) : OpOutcome := r

/-- `aws_secrets_list` (langchain_tools.py): no `try/except`. -/
def aws_secrets_list (r : OpOutcome) : OpOutcome := r

/-- `aws_secrets_create` (langchain_tools.py): no `try/except`. -/
def aws_secrets_create (r : OpOutcome) : OpOutcome := r

/-- `aws_logs_tail` (langchain_tools.py): no `try/except`. -/
def aws_logs_tail (r : OpOutcome) : OpOutcome := r

/-- `aws_lambda_list` (langchain_tools.py): no `try/except`. -/
def aws_lambda_list (r : OpOutcome) : OpOutcome := r

/-- `aws_lambda_invoke` (langchain_tools.py): no `try/except`. -/
def aws_lambda_invoke (r : OpOutcome) : OpOutcome := r

/-- `aws_iam_whoami` (langchain_tools.py): no `try/except`. -/
def aws_iam_whoami (r : OpOutcome) : OpOutcome := r

/-- `aws_status` (langchain_tools.py): catches every exception and
returns `f"Connection error: {e}"`. -/
def aws_status (r : OpOutcome) : OpOutcome :=
  match r with
  | Except.error e => Except.ok ("Connection error: " ++ pyStrOfExc e)
  | _ => r

/-- `aws_ecr_list` (langchain_tools.py): no `try/except`. -/
def aws_ecr_list (r : OpOutcome) : OpOutcome := r

/-- `aws_route53_list` (langchain_tools.py): no `try/except`. -/
def aws_route53_list (r : OpOutcome) : OpOutcome := r

/-- `aws_cloudformation_list` (langchain_tools.py): no `try/except`. -/
def aws_cloudformation_list (r : OpOutcome) : OpOutcome := r

/-- The `TOOLS` export list of langchain_tools.py, in source order. -/
def TOOLS : List (OpOutcome → OpOutcome) :=
  [aws_ec2_list, aws_ec2_status, aws_ec2_start, aws_ec2_stop,
   aws_s3_list, aws_s3_list_buckets, aws_s3_get, aws_s3_put,
   aws_secrets_get, aws_secrets_list, aws_secrets_create, aws_logs_tail,
   aws_lambda_list, aws_lambda_invoke, aws_iam_whoami, aws_status,
   aws_ecr_list, aws_route53_list, aws_cloudformation_list]

/-- Every langchain_tools.py wrapper other than `aws_status`: all of
these let SDK exceptions propagate. -/
def propagatingTools : List (OpOutcome → OpOutcome) :=
  [aws_ec2_list, aws_ec2_status, aws_ec2_start, aws_ec2_stop,
   aws_s3_list, aws_s3_list_buckets, aws_s3_get, aws_s3_put,
   aws_secrets_get, aws_secrets_list, aws_secrets_create, aws_logs_tail,
   aws_lambda_list, aws_lambda_invoke, aws_iam_whoami,
   aws_ecr_list, aws_route53_list, aws_cloudformation_list]

end Langchain

/-! ## Claims -/

/-- C1: session-mode selection follows the fixed precedence of
`AWSClient.session`: both key fields non-empty selects the static-key
session regardless of the profile; otherwise a non-empty profile selects
the named-profile session; otherwise the ambient-default session.  With
at most one key field non-empty the static-key branch is never
selected. -/
theorem claim_C1_session_precedence (c : AWSClient) :
    (c.access_key_id ≠ "" → c.secret_access_key ≠ "" →
      c.session = Session.staticKeys c.access_key_id c.secret_access_key c.region) ∧
    (¬ (c.access_key_id ≠ "" ∧ c.secret_access_key ≠ "") → c.profile ≠ "" →
      c.session = Session.namedProfile c.profile c.region) ∧
    (¬ (c.access_key_id ≠ "" ∧ c.secret_access_key ≠ "") → c.profile = "" →
      c.session = Session.ambient c.region) ∧
    ((c.access_key_id = "" ∨ c.secret_access_key = "") →
      ∀ ak sk r, c.session ≠ Session.staticKeys ak sk r) := by
  refine ⟨?_, ?_, ?_, ?_⟩
  · intro h1 h2
    simp [AWSClient.session, h1, h2]
  · intro h hp
    simp [AWSClient.session, h, hp]
  · intro h hp
    simp [AWSClient.session, h, hp]
  · intro h ak sk r
    have hn : ¬ (c.access_key_id ≠ "" ∧ c.secret_access_key ≠ "") := by
      rcases h with h | h <;> simp [h]
    simp only [AWSClient.session, if_neg hn]
    split <;> simp

/-- Witness for C1 at concrete clients exercising each branch. -/
theorem claim_C1_witness :
    (AWSClient.mk "r" "AK" "SK" "dev").session = Session.staticKeys "AK" "SK" "r" ∧
    (AWSClient.mk "r" "" "SK" "dev").session = Session.namedProfile "dev" "r" ∧
    (AWSClient.mk "r" "" "SK" "").session = Session.ambient "r" ∧
    (AWSClient.mk "r" "AK" "" "").session ≠ Session.staticKeys "AK" "" "r" :=
  ⟨(claim_C1_session_precedence _).1 (by decide) (by decide),
   (claim_C1_session_precedence _).2.1 (by decide) (by decide),
   (claim_C1_session_precedence _).2.2.1 (by decide) (by decide),
   (claim_C1_session_precedence _).2.2.2 (Or.inr rfl) "AK" "" "r"⟩

/-- C2 counterexample: with the override supplied as the empty string,
the resolved region still depends on the environment value — two
environments differing only in `AWS_REGION` resolve differently under
the same supplied override, so a supplied override does not always
prevent the environment from being consulted. -/
theorem claim_C2_counterexample :
    ¬ ((AWSClient.init ⟨some "us-west-2", none, none, none⟩
          (some "") none none none).region
        = (AWSClient.init ⟨some "eu-west-1", none, none, none⟩
          (some "") none none none).region) := by decide

/-- C2 amended: whenever the explicit override argument is supplied and
non-empty, the resolved field is the stripped override and the
corresponding environment value is not consulted (the environment is
universally quantified and absent from the result); an empty-string
override instead falls back to the environment. -/
theorem claim_C2_override_wins (env : Env) (o : String) (h : o ≠ "")
    (a b c : Option String) :
    (AWSClient.init env (some o) a b c).region = pyStrip o ∧
    (AWSClient.init env a (some o) b c).access_key_id = pyStrip o ∧
    (AWSClient.init env a b (some o) c).secret_access_key = pyStrip o ∧
    (AWSClient.init env a b c (some o)).profile = pyStrip o := by
  refine ⟨?_, ?_, ?_, ?_⟩ <;> simp [AWSClient.init, pyOr, h]

/-- Witness for C2 amended: an override beats a conflicting non-empty
environment value on every field. -/
theorem claim_C2_witness :
    (AWSClient.init ⟨some "us-west-2", some "EK", some "ES", some "EP"⟩
        (some "eu-west-1") none none none).region = pyStrip "eu-west-1" :=
  (claim_C2_override_wins _ "eu-west-1" (by decide) none none none).1

/-- C3 counterexample: a whitespace-only region override strips to the
empty string, so the resolved region is not always non-empty. -/
theorem claim_C3_counterexample :
    ¬ (∀ (env : Env) (r a s p : Option String),
        (AWSClient.init env r a s p).region ≠ "") := by
  intro h
  exact h ⟨none, none, none, none⟩ (some " ") none none none (by decide)

/-- C3 amended: the resolved region is non-empty provided every region
source actually present — the override when supplied, the `AWS_REGION`
environment value when set — strips to a non-empty string; with no
source at all the region is the non-empty default `us-east-1`.  (A
whitespace-only or empty supplied source can yield an empty region.) -/
theorem claim_C3_region_nonempty (env : Env) (r a s p : Option String)
    (hr : ∀ x, r = some x → pyStrip x ≠ "")
    (he : ∀ x, env.AWS_REGION = some x → pyStrip x ≠ "") :
    (AWSClient.init env r a s p).region ≠ "" := by
  show pyStrip (pyOr r (env.AWS_REGION.getD "us-east-1")) ≠ ""
  cases r with
  | some x =>
    by_cases hx : x = ""
    · subst hx
      exact absurd (by decide : pyStrip "" = "") (hr "" rfl)
    · simpa [pyOr, hx] using hr x rfl
  | none =>
    cases hE : env.AWS_REGION with
    | none => simp [pyOr, hE]; decide
    | some x => simpa [pyOr, hE] using he x hE

/-- Witness for C3 amended: with no region sources at all, the resolved
region is non-empty. -/
theorem claim_C3_witness :
    (AWSClient.init ⟨none, none, none, none⟩ none none none none).region ≠ "" :=
  claim_C3_region_nonempty _ _ _ _ _ (fun _ hx => nomatch hx) (fun _ hx => nomatch hx)

/-- C4: each resolved field is the chosen source value stripped of
leading and trailing whitespace, both when the chosen source is a
(non-empty) explicit override and when, with the override absent, it is
the environment value. -/
theorem claim_C4_strip_applied (env : Env) (o : String) (a b c : Option String) :
    (o ≠ "" →
      (AWSClient.init env (some o) a b c).region = pyStrip o ∧
      (AWSClient.init env a (some o) b c).access_key_id = pyStrip o ∧
      (AWSClient.init env a b (some o) c).secret_access_key = pyStrip o ∧
      (AWSClient.init env a b c (some o)).profile = pyStrip o) ∧
    (env.AWS_REGION = some o →
      (AWSClient.init env none a b c).region = pyStrip o) ∧
    (env.AWS_ACCESS_KEY_ID = some o →
      (AWSClient.init env a none b c).access_key_id = pyStrip o) ∧
    (env.AWS_SECRET_ACCESS_KEY = some o →
      (AWSClient.init env a b none c).secret_access_key = pyStrip o) ∧
    (env.AWS_PROFILE = some o →
      (AWSClient.init env a b c none).profile = pyStrip o) := by
  refine ⟨fun h => ⟨?_, ?_, ?_, ?_⟩, fun h => ?_, fun h => ?_, fun h => ?_, fun h => ?_⟩ <;>
    simp [AWSClient.init, pyOr, h]

/-- Witness for C4: stripping applies to a whitespace-padded override
and to a whitespace-padded environment value. -/
theorem claim_C4_witness :
    (AWSClient.init ⟨none, none, none, none⟩
        (some " eu-west-1 ") none none none).region = pyStrip " eu-west-1 " ∧
    (AWSClient.init ⟨some " us-west-2 ", none, none, none⟩
        none none none none).region = pyStrip " us-west-2 " :=
  ⟨((claim_C4_strip_applied _ " eu-west-1 " none none none).1 (by decide)).1,
   (claim_C4_strip_applied _ " us-west-2 " none none none).2.1 rfl⟩

/-- C5: with the region override absent and `AWS_REGION` unset, the
resolved region is exactly `"us-east-1"`. -/
theorem claim_C5_default_region (env : Env) (a b c : Option String)
    (h : env.AWS_REGION = none) :
    (AWSClient.init env none a b c).region = "us-east-1" := by
  show pyStrip (pyOr none (env.AWS_REGION.getD "us-east-1")) = "us-east-1"
  rw [h]
  decide

/-- Witness for C5 at a concrete environment with the other variables
set. -/
theorem claim_C5_witness :
    (AWSClient.init ⟨none, some "AK", some "SK", some "p"⟩
        none none none none).region = "us-east-1" :=
  claim_C5_default_region _ _ _ _ rfl

/-- C7: every client minted by `get_client` on one instance is bound to
that instance's single resolved region, on every branch of the session
policy; in particular two clients for different services share the
region. -/
theorem claim_C7_same_region (c : AWSClient) (s1 s2 : String) :
    (c.get_client s1).sess.regionOf = c.region ∧
    (c.get_client s2).sess.regionOf = c.region ∧
    (c.get_client s1).sess.regionOf = (c.get_client s2).sess.regionOf := by
  have h : ∀ s, (c.get_client s).sess.regionOf = c.region := by
    intro s
    show c.session.regionOf = c.region
    unfold AWSClient.session
    split
    · rfl
    · split <;> rfl
  exact ⟨h s1, h s2, (h s1).trans (h s2).symm⟩

/-- C8: construction is free of cross-instance interference — building
two instances in either order against the same initial environment
leaves the environment unchanged and gives each instance exactly the
fields it would have when constructed alone. -/
theorem claim_C8_no_interference (env : Env)
    (r1 a1 s1 p1 r2 a2 s2 p2 : Option String) :
    (AWSClient.construct env r1 a1 s1 p1).2 = env ∧
    (AWSClient.construct env r1 a1 s1 p1).1 = AWSClient.init env r1 a1 s1 p1 ∧
    (AWSClient.construct (AWSClient.construct env r1 a1 s1 p1).2 r2 a2 s2 p2).1
      = AWSClient.init env r2 a2 s2 p2 ∧
    (AWSClient.construct (AWSClient.construct env r2 a2 s2 p2).2 r1 a1 s1 p1).1
      = AWSClient.init env r1 a1 s1 p1 :=
  ⟨rfl, rfl, rfl, rfl⟩

/-- C9: calling `get_logs` without a log stream returns the empty list
(no error) when the `describe_log_streams` response holds no streams;
when streams exist it reads events exactly from the first stream of the
response requested ordered by `LastEventTime` descending. -/
theorem claim_C9_get_logs (api : LogsAPI) (g : String) (limit : Nat) :
    ((api.describe_log_streams g "LastEventTime" true 1).logStreams = [] →
      get_logs api g none limit = Except.ok []) ∧
    (∀ st rest,
      (api.describe_log_streams g "LastEventTime" true 1).logStreams = st :: rest →
      get_logs api g none limit =
        Except.ok (reshapeEvents (api.get_log_events g st.logStreamName limit).events)) := by
  constructor
  · intro h
    show get_logs_latest_stream api g limit = Except.ok []
    unfold get_logs_latest_stream
    simp [h]
  · intro st rest h
    show get_logs_latest_stream api g limit = _
    unfold get_logs_latest_stream
    simp [h]

/-- Witness for C9: the empty-stream endpoint yields `ok []`; a
one-stream endpoint yields that stream's events. -/
theorem claim_C9_witness :
    get_logs emptyLogsAPI "g" none 50 = Except.ok [] ∧
    get_logs oneStreamLogsAPI "g" none 50 =
      Except.ok (reshapeEvents
        (oneStreamLogsAPI.get_log_events "g" "stream-a" 50).events) :=
  ⟨(claim_C9_get_logs emptyLogsAPI "g" 50).1 rfl,
   (claim_C9_get_logs oneStreamLogsAPI "g" 50).2 ⟨"stream-a"⟩ [] rfl⟩

/-- C10: `get_secret` returns the `SecretString` when present, else the
`SecretBinary` when present, else the empty string; the response with
neither field is indistinguishable from one with an empty
`SecretString`. -/
theorem claim_C10_get_secret (r : GetSecretValueResponse) :
    (∀ s, r.SecretString = some s → get_secret r = s) ∧
    (∀ b, r.SecretString = none → r.SecretBinary = some b → get_secret r = b) ∧
    (r.SecretString = none → r.SecretBinary = none → get_secret r = "") ∧
    get_secret ⟨none, none⟩ = get_secret ⟨some "", none⟩ := by
  refine ⟨?_, ?_, ?_, rfl⟩
  · intro s h
    simp [get_secret, h]
  · intro b h1 h2
    simp [get_secret, h1, h2]
  · intro h1 h2
    simp [get_secret, h1, h2]

/-- Witness for C10 at concrete responses covering all three cases. -/
theorem claim_C10_witness :
    get_secret ⟨some "v", some "b"⟩ = "v" ∧
    get_secret ⟨none, some "b"⟩ = "b" ∧
    get_secret ⟨none, none⟩ = "" :=
  ⟨(claim_C10_get_secret _).1 "v" rfl,
   (claim_C10_get_secret _).2.1 "b" rfl rfl,
   (claim_C10_get_secret _).2.2.1 rfl rfl⟩

/-- C6 counterexample: not every tool wrapper converts SDK client errors
and the no-credentials condition into a result string — the LangChain
`aws_ec2_start` wrapper has no handler and propagates a `ClientError`
unchanged. -/
theorem claim_C6_counterexample :
    ¬ (∀ w ∈ Server.tools ++ Langchain.TOOLS, ∀ e : AWSErr,
        (e = AWSErr.noCredentials ∨ ∃ m, e = AWSErr.clientError m) →
        ∃ s, w (Except.error e) = Except.ok s) := by
  intro h
  have hmem : Langchain.aws_ec2_start ∈ Server.tools ++ Langchain.TOOLS := by
    simp [Server.tools, Langchain.TOOLS]
  rcases h Langchain.aws_ec2_start hmem (AWSErr.clientError "Access Denied")
      (Or.inr ⟨"Access Denied", rfl⟩) with ⟨s, hs⟩
  simp [Langchain.aws_ec2_start] at hs

/-- C6 amended: every server.py tool converts a `ClientError` into a
result string, but the no-credentials condition is converted only by
`ec2_list_instances` and `aws_status` there — the fourteen other server
tools propagate it; in the LangChain layer only `aws_status` converts
exceptions (any of them) into a result string, while every other wrapper
propagates both error kinds to the host framework. -/
theorem claim_C6_error_translation (m : String) :
    (∀ w ∈ Server.tools,
      ∃ s, w (Except.error (AWSErr.clientError m)) = Except.ok s) ∧
    (∃ s, Server.ec2_list_instances (Except.error AWSErr.noCredentials)
      = Except.ok s) ∧
    (∃ s, Server.aws_status (Except.error AWSErr.noCredentials) = Except.ok s) ∧
    (∀ w ∈ Server.noCredPropagatingTools,
      w (Except.error AWSErr.noCredentials) = Except.error AWSErr.noCredentials) ∧
    (∀ w ∈ Langchain.propagatingTools, ∀ e : AWSErr,
      w (Except.error e) = Except.error e) ∧
    (∀ e : AWSErr, ∃ s, Langchain.aws_status (Except.error e) = Except.ok s) := by
  refine ⟨?_, ⟨_, rfl⟩, ⟨_, rfl⟩, ?_, ?_, fun e => ⟨_, rfl⟩⟩
  · intro w hw
    fin_cases hw <;> exact ⟨_, rfl⟩
  · intro w hw
    fin_cases hw <;> rfl
  · intro w hw e
    fin_cases hw <;> rfl

/-- Witness for C6 amended: a server tool converts a concrete client
error, and a LangChain wrapper propagates a concrete no-credentials
error. -/
theorem claim_C6_witness :
    (∃ s, Server.ec2_start_instance
        (Except.error (AWSErr.clientError "Access Denied")) = Except.ok s) ∧
    Langchain.aws_ec2_start (Except.error AWSErr.noCredentials)
      = Except.error AWSErr.noCredentials :=
  ⟨(claim_C6_error_translation "Access Denied").1 Server.ec2_start_instance
      (by simp [Server.tools]),
   (claim_C6_error_translation "x").2.2.2.2.1 Langchain.aws_ec2_start
      (by simp [Langchain.propagatingTools]) AWSErr.noCredentials⟩
